import Mathlib

/-!
Shallow embedding of `src/AirSim/tcp_socket.py` (repository VePack.Simulator).

The file defines two classes, `TcpServer` and `TcpClient`, each a thin
wrapper over the platform socket API.  We embed each method as a pure
function that, besides its Python-level result, returns the ordered list
of platform calls it performed (the trace), so that ordering and
error-propagation properties become statements about concrete lists.
External outcomes (is the address in use, does the peer refuse, does a
close step raise) are supplied by an environment; the set of
already-closed resources is threaded through an explicit `World`.
-/

/-- Python-level exceptions relevant to this module, named after the
spec's error taxonomy: `bindError` stands for the OS error raised by
`bind` on an address in use, `connectionError` for a refused/failed
`connect` or `accept`, `closeError` for a failure while releasing a
resource. -/
inductive PyError where
  | bindError
  | connectionError
  | closeError
  deriving DecidableEq, Repr

/-- One platform call performed by the module.  Sockets and streams are
identified by natural-number handles. -/
inductive SysCall where
  | socketCall                                            -- socket.socket(AF_INET, SOCK_STREAM)
  | setsockopt (sock : Nat) (reuseaddr : Bool) (val : Nat) -- setsockopt(SOL_SOCKET, SO_REUSEADDR, 1)
  | bindCall (sock : Nat) (ip : String) (port : Nat)       -- sock.bind((ip, port))
  | listenCall (sock : Nat) (backlog : Nat)                -- sock.listen(backlog)
  | printMsg (msg : String)                                -- print(...)
  | acceptCall (sock : Nat)                                -- sock.accept()
  | connectCall (sock : Nat) (ip : String) (port : Nat)    -- sock.connect((ip, port))
  | makefile (sock : Nat) (mode : String) (encoding : String) -- sock.makefile(mode, encoding=...)
  | closeStream (stream : Nat)                             -- stream.close()
  | closeSock (sock : Nat)                                 -- sock.close()
  deriving DecidableEq, Repr

/-- External network environment: which bind targets are already in use,
whether accept fails, which connect targets refuse, the handles the
platform hands out (`sockId` for the freshly created socket, `peerSock`
and `peerAddr` for the accepted peer, `mkStream s` for the stream object
`makefile` builds over socket `s`). -/
structure NetEnv where
  addrInUse : String → Nat → Bool
  acceptFails : Bool
  connectRefused : String → Nat → Bool
  sockId : Nat
  peerSock : Nat
  peerAddr : String × Nat
  mkStream : Nat → Nat

/-- State of the instance fields set by `TcpServer.__init__`. -/
structure TcpServer where
  serversock : Nat
  clientsock : Nat
  client_address : String × Nat
  stream : Nat
  deriving DecidableEq, Repr

/-- State of the instance fields set by `TcpClient.__init__`. -/
structure TcpClient where
  client : Nat
  stream : Nat
  deriving DecidableEq, Repr

/-- Modelled from the spec: `DataStream` (the Stream Adapter from
`data_stream.py`, a collaborator file not present under `src/`) wraps an
existing stream into line-oriented text I/O.  Only its identity as a
wrapper over the given stream object matters here: constructing it
performs no platform call and stores the stream it was given. -/
structure DataStream where
  stream : Nat
  deriving DecidableEq, Repr

/-- Embedding of `TcpServer.__init__(self, ip, port)` (tcp_socket.py
lines 6-14): create the listening socket, set SO_REUSEADDR, bind,
listen(1), print, block in accept, wrap the accepted socket with
makefile('rw', encoding='utf-8'), print.  A failing bind or accept
raises, leaving the later fields unassigned (error result). -/
def TcpServer.init (env : NetEnv) (ip : String) (port : Nat) :
    Except PyError TcpServer × List SysCall :=
  let s := env.sockId
  if env.addrInUse ip port then
    (Except.error PyError.bindError,
     [SysCall.socketCall, SysCall.setsockopt s true 1, SysCall.bindCall s ip port])
  else if env.acceptFails then
    (Except.error PyError.connectionError,
     [SysCall.socketCall, SysCall.setsockopt s true 1, SysCall.bindCall s ip port,
      SysCall.listenCall s 1, SysCall.printMsg "Waiting for connections...",
      SysCall.acceptCall s])
  else
    (Except.ok { serversock := s, clientsock := env.peerSock,
                 client_address := env.peerAddr, stream := env.mkStream env.peerSock },
     [SysCall.socketCall, SysCall.setsockopt s true 1, SysCall.bindCall s ip port,
      SysCall.listenCall s 1, SysCall.printMsg "Waiting for connections...",
      SysCall.acceptCall s, SysCall.makefile env.peerSock "rw" "utf-8",
      SysCall.printMsg "Connected!"])

/-- Embedding of `TcpServer.get_stream` (line 16-17): `return
DataStream(self.stream)` — a pure wrapper construction, no platform
call, no field assignment. -/
def TcpServer.get_stream (self : TcpServer) : DataStream :=
  { stream := self.stream }

/-- Embedding of `TcpClient.__init__(self, ip, port)` (lines 26-30):
create the socket, connect (raising ConnectionError when refused), wrap
with makefile('rw', encoding='utf-8'), print. -/
def TcpClient.init (env : NetEnv) (ip : String) (port : Nat) :
    Except PyError TcpClient × List SysCall :=
  let s := env.sockId
  if env.connectRefused ip port then
    (Except.error PyError.connectionError,
     [SysCall.socketCall, SysCall.connectCall s ip port])
  else
    (Except.ok { client := s, stream := env.mkStream s },
     [SysCall.socketCall, SysCall.connectCall s ip port,
      SysCall.makefile s "rw" "utf-8", SysCall.printMsg "Connected!"])

/-- Embedding of `TcpClient.get_stream` (lines 32-33). -/
def TcpClient.get_stream (self : TcpClient) : DataStream :=
  { stream := self.stream }

/-- Resource world: which stream and socket handles are already closed,
and which close operations the platform makes fail (a text stream's
close can raise when the final flush fails). -/
structure World where
  closedStreams : List Nat
  closedSocks : List Nat
  streamCloseFail : Nat → Bool
  sockCloseFail : Nat → Bool

/-- Python `file.close()` semantics for the stream returned by
`makefile`: closing an already-closed stream is a no-op; otherwise the
stream is marked closed (CPython closes the underlying buffer even when
the flush raises) and the call raises exactly when the platform makes
the flush fail. -/
def streamCloseStep (w : World) (s : Nat) : World × Option PyError :=
  if s ∈ w.closedStreams then (w, none)
  else ({ w with closedStreams := s :: w.closedStreams },
        if w.streamCloseFail s then some PyError.closeError else none)

/-- Python `socket.close()` semantics: closing an already-closed socket
is a no-op; otherwise the socket is marked closed and the call raises
exactly when the platform makes it fail. -/
def sockCloseStep (w : World) (s : Nat) : World × Option PyError :=
  if s ∈ w.closedSocks then (w, none)
  else ({ w with closedSocks := s :: w.closedSocks },
        if w.sockCloseFail s then some PyError.closeError else none)

/-- Embedding of `TcpServer.close` (lines 19-22): `self.stream.close();
self.clientsock.close(); self.serversock.close()` with no try/except —
an exception from one statement propagates and the following statements
never run.  Returns the world after the call, the raised error (if
any), and the trace of attempted close calls. -/
def TcpServer.close (w : World) (self : TcpServer) :
    World × Option PyError × List SysCall :=
  let r1 := streamCloseStep w self.stream
  match r1.2 with
  | some err => (r1.1, some err, [SysCall.closeStream self.stream])
  | none =>
    let r2 := sockCloseStep r1.1 self.clientsock
    match r2.2 with
    | some err => (r2.1, some err,
                   [SysCall.closeStream self.stream, SysCall.closeSock self.clientsock])
    | none =>
      let r3 := sockCloseStep r2.1 self.serversock
      (r3.1, r3.2,
       [SysCall.closeStream self.stream, SysCall.closeSock self.clientsock,
        SysCall.closeSock self.serversock])

/-- Embedding of `TcpClient.close` (lines 35-37): `self.stream.close();
self.client.close()` with no try/except. -/
def TcpClient.close (w : World) (self : TcpClient) :
    World × Option PyError × List SysCall :=
  let r1 := streamCloseStep w self.stream
  match r1.2 with
  | some err => (r1.1, some err, [SysCall.closeStream self.stream])
  | none =>
    let r2 := sockCloseStep r1.1 self.client
    (r2.1, r2.2, [SysCall.closeStream self.stream, SysCall.closeSock self.client])

/-- Is a platform call one that establishes a connection (accept or
connect)? -/
def isConnEstablish : SysCall → Bool
  | SysCall.acceptCall _ => true
  | SysCall.connectCall _ _ _ => true
  | _ => false

/-- Number of connection-establishing calls in a trace. -/
def connCount (tr : List SysCall) : Nat :=
  (tr.filter isConnEstablish).length

/-- Did the Python call succeed (no exception)? -/
def isOkE {α : Type} : Except PyError α → Bool
  | Except.ok _ => true
  | Except.error _ => false

/-! Concrete instances used by witnesses and counterexamples. -/

/-- A network environment where every operation succeeds: the fresh
socket gets handle 0, the accepted peer handle 1, makefile over socket
`s` yields stream `s + 10`. -/
def envOk : NetEnv :=
  { addrInUse := fun _ _ => false, acceptFails := false,
    connectRefused := fun _ _ => false, sockId := 0, peerSock := 1,
    peerAddr := ("127.0.0.1", 50000), mkStream := fun s => s + 10 }

/-- Like `envOk` but every bind target is already in use. -/
def envBusy : NetEnv :=
  { envOk with addrInUse := fun _ _ => true }

/-- Like `envOk` but every connect target refuses. -/
def envRefuse : NetEnv :=
  { envOk with connectRefused := fun _ _ => true }

/-- A world with nothing closed and no close failures. -/
def wOk : World :=
  { closedStreams := [], closedSocks := [],
    streamCloseFail := fun _ => false, sockCloseFail := fun _ => false }

/-- A world with nothing closed where every open stream's close raises. -/
def wStreamFail : World :=
  { closedStreams := [], closedSocks := [],
    streamCloseFail := fun _ => true, sockCloseFail := fun _ => false }

/-- The server instance `TcpServer.init envOk` constructs. -/
def srv0 : TcpServer :=
  { serversock := 0, clientsock := 1, client_address := ("127.0.0.1", 50000), stream := 11 }

/-- The client instance `TcpClient.init envOk` constructs. -/
def cli0 : TcpClient :=
  { client := 0, stream := 10 }

/-! Helper lemmas about the close-step semantics. -/

/-- After a stream close step the stream is recorded closed (CPython
marks the file closed even when the final flush raised). -/
theorem streamCloseStep_mem (w : World) (s : Nat) :
    s ∈ (streamCloseStep w s).1.closedStreams := by
  unfold streamCloseStep
  by_cases hc : s ∈ w.closedStreams
  · simp [hc]
  · simp [hc]

/-- After a socket close step the socket is recorded closed. -/
theorem sockCloseStep_mem (w : World) (s : Nat) :
    s ∈ (sockCloseStep w s).1.closedSocks := by
  unfold sockCloseStep
  by_cases hc : s ∈ w.closedSocks
  · simp [hc]
  · simp [hc]

/-- A stream close step never touches the closed-socket set. -/
theorem streamCloseStep_socks (w : World) (s : Nat) :
    (streamCloseStep w s).1.closedSocks = w.closedSocks := by
  unfold streamCloseStep
  by_cases hc : s ∈ w.closedStreams <;> simp [hc]

/-- A socket close step never touches the closed-stream set. -/
theorem sockCloseStep_streams (w : World) (s : Nat) :
    (sockCloseStep w s).1.closedStreams = w.closedStreams := by
  unfold sockCloseStep
  by_cases hc : s ∈ w.closedSocks <;> simp [hc]

/-- Socket close steps only add to the closed-socket set. -/
theorem sockCloseStep_mono (w : World) (s t : Nat) (h : t ∈ w.closedSocks) :
    t ∈ (sockCloseStep w s).1.closedSocks := by
  unfold sockCloseStep
  by_cases hc : s ∈ w.closedSocks <;> simp [hc, h]

/-- Closing an already-closed stream is a no-op that cannot raise. -/
theorem streamCloseStep_of_closed (w : World) (s : Nat) (h : s ∈ w.closedStreams) :
    streamCloseStep w s = (w, none) := by
  unfold streamCloseStep
  simp [h]

/-- Closing an already-closed socket is a no-op that cannot raise. -/
theorem sockCloseStep_of_closed (w : World) (s : Nat) (h : s ∈ w.closedSocks) :
    sockCloseStep w s = (w, none) := by
  unfold sockCloseStep
  simp [h]

/-! Claim theorems. -/

/-- C2: when no release step raises, `TcpServer.close` performs exactly
[stream close, peer-socket close, listening-socket close] in that
order, and `TcpClient.close` performs exactly [stream close, socket
close] in that order. -/
theorem C2_close_release_order (w : World) (srv : TcpServer) (cli : TcpClient)
    (hs : (TcpServer.close w srv).2.1 = none)
    (hc : (TcpClient.close w cli).2.1 = none) :
    (TcpServer.close w srv).2.2 =
      [SysCall.closeStream srv.stream, SysCall.closeSock srv.clientsock,
       SysCall.closeSock srv.serversock] ∧
    (TcpClient.close w cli).2.2 =
      [SysCall.closeStream cli.stream, SysCall.closeSock cli.client] := by
  constructor
  · rcases h1 : streamCloseStep w srv.stream with ⟨w1, e1⟩
    rcases e1 with _ | err1
    · rcases h2 : sockCloseStep w1 srv.clientsock with ⟨w2, e2⟩
      rcases e2 with _ | err2
      · simp [TcpServer.close, h1, h2]
      · exfalso
        simp [TcpServer.close, h1, h2] at hs
    · exfalso
      simp [TcpServer.close, h1] at hs
  · rcases h1 : streamCloseStep w cli.stream with ⟨w1, e1⟩
    rcases e1 with _ | err1
    · simp [TcpClient.close, h1]
    · exfalso
      simp [TcpClient.close, h1] at hc

/-- C2 witness: the orderly traces at a concrete world and instances. -/
theorem C2_close_release_order_witness :
    (TcpServer.close wOk srv0).2.2 =
      [SysCall.closeStream srv0.stream, SysCall.closeSock srv0.clientsock,
       SysCall.closeSock srv0.serversock] ∧
    (TcpClient.close wOk cli0).2.2 =
      [SysCall.closeStream cli0.stream, SysCall.closeSock cli0.client] :=
  C2_close_release_order wOk srv0 cli0 (by decide) (by decide)

/-- C3: when the bind address is free and accept succeeds, the Listener
constructor performs, in order: socket creation, SO_REUSEADDR enable,
bind to (ip, port), listen with backlog exactly 1, status print, the
blocking accept, and wraps the accepted peer socket as the stream; the
constructed object holds the accepted socket and that stream. -/
theorem C3_listener_construction (env : NetEnv) (ip : String) (port : Nat)
    (hb : env.addrInUse ip port = false) (ha : env.acceptFails = false) :
    TcpServer.init env ip port =
      (Except.ok { serversock := env.sockId, clientsock := env.peerSock,
                   client_address := env.peerAddr, stream := env.mkStream env.peerSock },
       [SysCall.socketCall, SysCall.setsockopt env.sockId true 1,
        SysCall.bindCall env.sockId ip port, SysCall.listenCall env.sockId 1,
        SysCall.printMsg "Waiting for connections...",
        SysCall.acceptCall env.sockId,
        SysCall.makefile env.peerSock "rw" "utf-8",
        SysCall.printMsg "Connected!"]) := by
  simp [TcpServer.init, hb, ha]

/-- C3 witness: the construction at the all-success environment. -/
theorem C3_listener_construction_witness :
    TcpServer.init envOk "127.0.0.1" 3000 =
      (Except.ok { serversock := envOk.sockId, clientsock := envOk.peerSock,
                   client_address := envOk.peerAddr,
                   stream := envOk.mkStream envOk.peerSock },
       [SysCall.socketCall, SysCall.setsockopt envOk.sockId true 1,
        SysCall.bindCall envOk.sockId "127.0.0.1" 3000,
        SysCall.listenCall envOk.sockId 1,
        SysCall.printMsg "Waiting for connections...",
        SysCall.acceptCall envOk.sockId,
        SysCall.makefile envOk.peerSock "rw" "utf-8",
        SysCall.printMsg "Connected!"]) :=
  C3_listener_construction envOk "127.0.0.1" 3000 (by decide) (by decide)

/-- C5: when the bind address is in use the Listener constructor raises
BindError after attempting exactly socket creation, SO_REUSEADDR and
bind; no accept and no makefile ever happen, so no peer socket and no
stream exist and no object is constructed. -/
theorem C5_bind_in_use_fails (env : NetEnv) (ip : String) (port : Nat)
    (h : env.addrInUse ip port = true) :
    TcpServer.init env ip port =
      (Except.error PyError.bindError,
       [SysCall.socketCall, SysCall.setsockopt env.sockId true 1,
        SysCall.bindCall env.sockId ip port]) ∧
    (∀ s, SysCall.acceptCall s ∉ (TcpServer.init env ip port).2) ∧
    (∀ s m e, SysCall.makefile s m e ∉ (TcpServer.init env ip port).2) := by
  simp [TcpServer.init, h]

/-- C5 witness: the failure at the busy environment. -/
theorem C5_bind_in_use_fails_witness :
    TcpServer.init envBusy "127.0.0.1" 3000 =
      (Except.error PyError.bindError,
       [SysCall.socketCall, SysCall.setsockopt envBusy.sockId true 1,
        SysCall.bindCall envBusy.sockId "127.0.0.1" 3000]) ∧
    (∀ s, SysCall.acceptCall s ∉ (TcpServer.init envBusy "127.0.0.1" 3000).2) ∧
    (∀ s m e, SysCall.makefile s m e ∉ (TcpServer.init envBusy "127.0.0.1" 3000).2) :=
  C5_bind_in_use_fails envBusy "127.0.0.1" 3000 (by decide)

/-- C6: when the remote refuses, the Connector constructor raises
ConnectionError after exactly one connect attempt (no retries) and no
makefile happens, so no stream is created. -/
theorem C6_connect_refused_fails (env : NetEnv) (ip : String) (port : Nat)
    (h : env.connectRefused ip port = true) :
    TcpClient.init env ip port =
      (Except.error PyError.connectionError,
       [SysCall.socketCall, SysCall.connectCall env.sockId ip port]) ∧
    connCount (TcpClient.init env ip port).2 = 1 ∧
    (∀ s m e, SysCall.makefile s m e ∉ (TcpClient.init env ip port).2) := by
  simp [TcpClient.init, h, connCount, isConnEstablish]

/-- C6 witness: the failure at the refusing environment. -/
theorem C6_connect_refused_fails_witness :
    TcpClient.init envRefuse "127.0.0.1" 3000 =
      (Except.error PyError.connectionError,
       [SysCall.socketCall, SysCall.connectCall envRefuse.sockId "127.0.0.1" 3000]) ∧
    connCount (TcpClient.init envRefuse "127.0.0.1" 3000).2 = 1 ∧
    (∀ s m e, SysCall.makefile s m e ∉ (TcpClient.init envRefuse "127.0.0.1" 3000).2) :=
  C6_connect_refused_fails envRefuse "127.0.0.1" 3000 (by decide)

/-- C1 counterexample: in a world where closing the stream raises, the
Listener's close() stops there — neither the peer socket nor the
listening socket close is attempted, refuting the claim that the
remaining release steps are still attempted. -/
theorem C1_counterexample :
    (TcpServer.close wStreamFail srv0).2.1 = some PyError.closeError ∧
    SysCall.closeSock srv0.clientsock ∉ (TcpServer.close wStreamFail srv0).2.2 ∧
    SysCall.closeSock srv0.serversock ∉ (TcpServer.close wStreamFail srv0).2.2 := by
  decide

/-- C1 (amended): if a release step inside close() raises, the
exception propagates to the caller and the remaining release steps are
NOT attempted (the code has no try/except); the releases that do run
happen in order.  Stated for the first failing step of both classes and
for a failure at the Listener's second step. -/
theorem C1_close_failure_stops_sequence (w : World) (srv : TcpServer) (cli : TcpClient) :
    ((streamCloseStep w srv.stream).2 ≠ none →
       (TcpServer.close w srv).2.1 = (streamCloseStep w srv.stream).2 ∧
       (TcpServer.close w srv).2.2 = [SysCall.closeStream srv.stream]) ∧
    ((streamCloseStep w srv.stream).2 = none →
       (sockCloseStep (streamCloseStep w srv.stream).1 srv.clientsock).2 ≠ none →
       (TcpServer.close w srv).2.1 =
         (sockCloseStep (streamCloseStep w srv.stream).1 srv.clientsock).2 ∧
       (TcpServer.close w srv).2.2 =
         [SysCall.closeStream srv.stream, SysCall.closeSock srv.clientsock]) ∧
    ((streamCloseStep w cli.stream).2 ≠ none →
       (TcpClient.close w cli).2.1 = (streamCloseStep w cli.stream).2 ∧
       (TcpClient.close w cli).2.2 = [SysCall.closeStream cli.stream]) := by
  refine ⟨?_, ?_, ?_⟩
  · intro hne
    rcases h1 : streamCloseStep w srv.stream with ⟨w1, e1⟩
    rcases e1 with _ | err1
    · rw [h1] at hne
      simp at hne
    · simp [TcpServer.close, h1]
  · intro he hne
    rcases h1 : streamCloseStep w srv.stream with ⟨w1, e1⟩
    rcases e1 with _ | err1
    · rw [h1] at hne
      rcases h2 : sockCloseStep w1 srv.clientsock with ⟨w2, e2⟩
      rcases e2 with _ | err2
      · rw [h2] at hne
        simp at hne
      · simp [TcpServer.close, h1, h2]
    · rw [h1] at he
      simp at he
  · intro hne
    rcases h1 : streamCloseStep w cli.stream with ⟨w1, e1⟩
    rcases e1 with _ | err1
    · rw [h1] at hne
      simp at hne
    · simp [TcpClient.close, h1]

/-- C1 witness: the amended behavior at the failing-close world. -/
theorem C1_close_failure_stops_sequence_witness :
    (TcpServer.close wStreamFail srv0).2.1 =
      (streamCloseStep wStreamFail srv0.stream).2 ∧
    (TcpServer.close wStreamFail srv0).2.2 = [SysCall.closeStream srv0.stream] :=
  (C1_close_failure_stops_sequence wStreamFail srv0 cli0).1 (by decide)

/-- C4: get_stream always returns an adapter wrapping the component's
one stream field, and on a component built by the constructor that
field is exactly the stream makefile created there; since get_stream is
a pure function that assigns nothing, every call returns a view over
that same stream object. -/
theorem C4_get_stream_same_stream (env : NetEnv) (ip : String) (port : Nat)
    (srv : TcpServer) (cli : TcpClient)
    (hs : (TcpServer.init env ip port).1 = Except.ok srv)
    (hc : (TcpClient.init env ip port).1 = Except.ok cli) :
    (TcpServer.get_stream srv).stream = srv.stream ∧
    (TcpClient.get_stream cli).stream = cli.stream ∧
    srv.stream = env.mkStream env.peerSock ∧
    cli.stream = env.mkStream env.sockId := by
  refine ⟨rfl, rfl, ?_, ?_⟩
  · unfold TcpServer.init at hs
    by_cases hb : env.addrInUse ip port
    · simp [hb] at hs
    · by_cases ha : env.acceptFails
      · simp [hb, ha] at hs
      · simp [hb, ha] at hs
        rw [← hs]
  · unfold TcpClient.init at hc
    by_cases hr : env.connectRefused ip port
    · simp [hr] at hc
    · simp [hr] at hc
      rw [← hc]

/-- C4 witness: the constructed instances at the all-success
environment expose the streams created at construction. -/
theorem C4_get_stream_same_stream_witness :
    (TcpServer.get_stream srv0).stream = srv0.stream ∧
    (TcpClient.get_stream cli0).stream = cli0.stream ∧
    srv0.stream = envOk.mkStream envOk.peerSock ∧
    cli0.stream = envOk.mkStream envOk.sockId :=
  C4_get_stream_same_stream envOk "127.0.0.1" 3000 srv0 cli0 (by rfl) (by rfl)

/-- C7: each instance establishes at most one connection, exactly one
when construction succeeds, always during construction; close performs
no accept or connect, and get_stream is a pure wrapper construction
(`TcpServer.get_stream` / `TcpClient.get_stream` return a `DataStream`
value and perform no platform call at all), so no exposed operation can
establish a second connection. -/
theorem C7_single_connection (env : NetEnv) (ip : String) (port : Nat)
    (w : World) (srv : TcpServer) (cli : TcpClient) :
    connCount (TcpServer.init env ip port).2 ≤ 1 ∧
    (isOkE (TcpServer.init env ip port).1 = true →
       connCount (TcpServer.init env ip port).2 = 1) ∧
    connCount (TcpServer.close w srv).2.2 = 0 ∧
    connCount (TcpClient.init env ip port).2 ≤ 1 ∧
    (isOkE (TcpClient.init env ip port).1 = true →
       connCount (TcpClient.init env ip port).2 = 1) ∧
    connCount (TcpClient.close w cli).2.2 = 0 := by
  refine ⟨?_, ?_, ?_, ?_, ?_, ?_⟩
  · by_cases hb : env.addrInUse ip port
    · simp [TcpServer.init, hb, connCount, isConnEstablish]
    · by_cases ha : env.acceptFails <;>
        simp [TcpServer.init, hb, ha, connCount, isConnEstablish]
  · intro hok
    by_cases hb : env.addrInUse ip port
    · simp [TcpServer.init, hb, isOkE] at hok
    · by_cases ha : env.acceptFails
      · simp [TcpServer.init, hb, ha, isOkE] at hok
      · simp [TcpServer.init, hb, ha, connCount, isConnEstablish]
  · rcases h1 : streamCloseStep w srv.stream with ⟨w1, e1⟩
    rcases e1 with _ | err1
    · rcases h2 : sockCloseStep w1 srv.clientsock with ⟨w2, e2⟩
      rcases e2 with _ | err2 <;>
        simp [TcpServer.close, h1, h2, connCount, isConnEstablish]
    · simp [TcpServer.close, h1, connCount, isConnEstablish]
  · by_cases hr : env.connectRefused ip port <;>
      simp [TcpClient.init, hr, connCount, isConnEstablish]
  · intro hok
    by_cases hr : env.connectRefused ip port
    · simp [TcpClient.init, hr, isOkE] at hok
    · simp [TcpClient.init, hr, connCount, isConnEstablish]
  · rcases h1 : streamCloseStep w cli.stream with ⟨w1, e1⟩
    rcases e1 with _ | err1 <;>
      simp [TcpClient.close, h1, connCount, isConnEstablish]

/-- C7 witness: exactly one connection-establishing call at the
all-success environment, for each class. -/
theorem C7_single_connection_witness :
    connCount (TcpServer.init envOk "127.0.0.1" 3000).2 = 1 ∧
    connCount (TcpClient.init envOk "127.0.0.1" 3000).2 = 1 :=
  ⟨(C7_single_connection envOk "127.0.0.1" 3000 wOk srv0 cli0).2.1 (by rfl),
   (C7_single_connection envOk "127.0.0.1" 3000 wOk srv0 cli0).2.2.2.2.1 (by rfl)⟩

/-- C8: a first close() that raises nothing releases every owned
resource (stream, peer socket, listening socket for the Listener;
stream and socket for the Connector), and a second close() on the
resulting world raises nothing, because closing an already-closed
stream or socket is a no-op. -/
theorem C8_close_releases_all_and_reclose_safe (w : World)
    (srv : TcpServer) (cli : TcpClient) :
    ((TcpServer.close w srv).2.1 = none →
       srv.stream ∈ (TcpServer.close w srv).1.closedStreams ∧
       srv.clientsock ∈ (TcpServer.close w srv).1.closedSocks ∧
       srv.serversock ∈ (TcpServer.close w srv).1.closedSocks ∧
       (TcpServer.close (TcpServer.close w srv).1 srv).2.1 = none) ∧
    ((TcpClient.close w cli).2.1 = none →
       cli.stream ∈ (TcpClient.close w cli).1.closedStreams ∧
       cli.client ∈ (TcpClient.close w cli).1.closedSocks ∧
       (TcpClient.close (TcpClient.close w cli).1 cli).2.1 = none) := by
  constructor
  · intro hok
    rcases h1 : streamCloseStep w srv.stream with ⟨w1, e1⟩
    rcases e1 with _ | err1
    · rcases h2 : sockCloseStep w1 srv.clientsock with ⟨w2, e2⟩
      rcases e2 with _ | err2
      · rcases h3 : sockCloseStep w2 srv.serversock with ⟨w3, e3⟩
        have hw : (TcpServer.close w srv).1 = w3 := by
          simp [TcpServer.close, h1, h2, h3]
        have hm1 : srv.stream ∈ w3.closedStreams := by
          have a1 : srv.stream ∈ w1.closedStreams := by
            have := streamCloseStep_mem w srv.stream
            rw [h1] at this
            exact this
          have a2 : w2.closedStreams = w1.closedStreams := by
            have := sockCloseStep_streams w1 srv.clientsock
            rw [h2] at this
            exact this
          have a3 : w3.closedStreams = w2.closedStreams := by
            have := sockCloseStep_streams w2 srv.serversock
            rw [h3] at this
            exact this
          rw [a3, a2]
          exact a1
        have hm2 : srv.clientsock ∈ w3.closedSocks := by
          have b1 : srv.clientsock ∈ w2.closedSocks := by
            have := sockCloseStep_mem w1 srv.clientsock
            rw [h2] at this
            exact this
          have := sockCloseStep_mono w2 srv.serversock srv.clientsock b1
          rw [h3] at this
          exact this
        have hm3 : srv.serversock ∈ w3.closedSocks := by
          have := sockCloseStep_mem w2 srv.serversock
          rw [h3] at this
          exact this
        refine ⟨hw ▸ hm1, hw ▸ hm2, hw ▸ hm3, ?_⟩
        rw [hw]
        have c1 := streamCloseStep_of_closed w3 srv.stream hm1
        have c2 := sockCloseStep_of_closed w3 srv.clientsock hm2
        have c3 := sockCloseStep_of_closed w3 srv.serversock hm3
        simp [TcpServer.close, c1, c2, c3]
      · exfalso
        simp [TcpServer.close, h1, h2] at hok
    · exfalso
      simp [TcpServer.close, h1] at hok
  · intro hok
    rcases h1 : streamCloseStep w cli.stream with ⟨w1, e1⟩
    rcases e1 with _ | err1
    · rcases h2 : sockCloseStep w1 cli.client with ⟨w2, e2⟩
      have hw : (TcpClient.close w cli).1 = w2 := by
        simp [TcpClient.close, h1, h2]
      have hm1 : cli.stream ∈ w2.closedStreams := by
        have a1 : cli.stream ∈ w1.closedStreams := by
          have := streamCloseStep_mem w cli.stream
          rw [h1] at this
          exact this
        have a2 : w2.closedStreams = w1.closedStreams := by
          have := sockCloseStep_streams w1 cli.client
          rw [h2] at this
          exact this
        rw [a2]
        exact a1
      have hm2 : cli.client ∈ w2.closedSocks := by
        have := sockCloseStep_mem w1 cli.client
        rw [h2] at this
        exact this
      refine ⟨hw ▸ hm1, hw ▸ hm2, ?_⟩
      rw [hw]
      have c1 := streamCloseStep_of_closed w2 cli.stream hm1
      have c2 := sockCloseStep_of_closed w2 cli.client hm2
      simp [TcpClient.close, c1, c2]
    · exfalso
      simp [TcpClient.close, h1] at hok

/-- C8 witness: at the all-success world the first close releases
everything and the second close raises nothing, for both classes. -/
theorem C8_close_releases_all_and_reclose_safe_witness :
    (srv0.stream ∈ (TcpServer.close wOk srv0).1.closedStreams ∧
     srv0.clientsock ∈ (TcpServer.close wOk srv0).1.closedSocks ∧
     srv0.serversock ∈ (TcpServer.close wOk srv0).1.closedSocks ∧
     (TcpServer.close (TcpServer.close wOk srv0).1 srv0).2.1 = none) ∧
    (cli0.stream ∈ (TcpClient.close wOk cli0).1.closedStreams ∧
     cli0.client ∈ (TcpClient.close wOk cli0).1.closedSocks ∧
     (TcpClient.close (TcpClient.close wOk cli0).1 cli0).2.1 = none) :=
  ⟨(C8_close_releases_all_and_reclose_safe wOk srv0 cli0).1 (by decide),
   (C8_close_releases_all_and_reclose_safe wOk srv0 cli0).2 (by decide)⟩

/-- C9: on success, both constructors hand the connected socket (the
accepted peer socket for the Listener, the connected client socket for
the Connector) to makefile with mode 'rw' (text read and write) and
encoding 'utf-8'. -/
theorem C9_makefile_rw_utf8 (env : NetEnv) (ip : String) (port : Nat) :
    (isOkE (TcpServer.init env ip port).1 = true →
       SysCall.makefile env.peerSock "rw" "utf-8" ∈ (TcpServer.init env ip port).2) ∧
    (isOkE (TcpClient.init env ip port).1 = true →
       SysCall.makefile env.sockId "rw" "utf-8" ∈ (TcpClient.init env ip port).2) := by
  constructor
  · intro hok
    by_cases hb : env.addrInUse ip port
    · simp [TcpServer.init, hb, isOkE] at hok
    · by_cases ha : env.acceptFails
      · simp [TcpServer.init, hb, ha, isOkE] at hok
      · simp [TcpServer.init, hb, ha]
  · intro hok
    by_cases hr : env.connectRefused ip port
    · simp [TcpClient.init, hr, isOkE] at hok
    · simp [TcpClient.init, hr]

/-- C9 witness: the utf-8 read-write makefile call is in both
construction traces at the all-success environment. -/
theorem C9_makefile_rw_utf8_witness :
    SysCall.makefile envOk.peerSock "rw" "utf-8" ∈
      (TcpServer.init envOk "127.0.0.1" 3000).2 ∧
    SysCall.makefile envOk.sockId "rw" "utf-8" ∈
      (TcpClient.init envOk "127.0.0.1" 3000).2 :=
  ⟨(C9_makefile_rw_utf8 envOk "127.0.0.1" 3000).1 (by rfl),
   (C9_makefile_rw_utf8 envOk "127.0.0.1" 3000).2 (by rfl)⟩

/-- C10: close() assigns no field (the embedding takes the instance by
value and never rebuilds it, mirroring the method body, which only
calls close on the objects the fields refer to), so after any close() a
get_stream() call still succeeds and returns an adapter wrapping the
same stream field, while the underlying stream object is recorded
closed in the world close() returned. -/
theorem C10_close_leaves_fields (w : World) (srv : TcpServer) (cli : TcpClient) :
    TcpServer.get_stream srv = { stream := srv.stream } ∧
    srv.stream ∈ (TcpServer.close w srv).1.closedStreams ∧
    TcpClient.get_stream cli = { stream := cli.stream } ∧
    cli.stream ∈ (TcpClient.close w cli).1.closedStreams := by
  refine ⟨rfl, ?_, rfl, ?_⟩
  · rcases h1 : streamCloseStep w srv.stream with ⟨w1, e1⟩
    have a1 : srv.stream ∈ w1.closedStreams := by
      have := streamCloseStep_mem w srv.stream
      rw [h1] at this
      exact this
    rcases e1 with _ | err1
    · rcases h2 : sockCloseStep w1 srv.clientsock with ⟨w2, e2⟩
      have a2 : w2.closedStreams = w1.closedStreams := by
        have := sockCloseStep_streams w1 srv.clientsock
        rw [h2] at this
        exact this
      rcases e2 with _ | err2
      · rcases h3 : sockCloseStep w2 srv.serversock with ⟨w3, e3⟩
        have a3 : w3.closedStreams = w2.closedStreams := by
          have := sockCloseStep_streams w2 srv.serversock
          rw [h3] at this
          exact this
        have : (TcpServer.close w srv).1 = w3 := by
          simp [TcpServer.close, h1, h2, h3]
        rw [this, a3, a2]
        exact a1
      · have : (TcpServer.close w srv).1 = w2 := by
          simp [TcpServer.close, h1, h2]
        rw [this, a2]
        exact a1
    · have : (TcpServer.close w srv).1 = w1 := by
        simp [TcpServer.close, h1]
      rw [this]
      exact a1
  · rcases h1 : streamCloseStep w cli.stream with ⟨w1, e1⟩
    have a1 : cli.stream ∈ w1.closedStreams := by
      have := streamCloseStep_mem w cli.stream
      rw [h1] at this
      exact this
    rcases e1 with _ | err1
    · rcases h2 : sockCloseStep w1 cli.client with ⟨w2, e2⟩
      have a2 : w2.closedStreams = w1.closedStreams := by
        have := sockCloseStep_streams w1 cli.client
        rw [h2] at this
        exact this
      have : (TcpClient.close w cli).1 = w2 := by
        simp [TcpClient.close, h1, h2]
      rw [this, a2]
      exact a1
    · have : (TcpClient.close w cli).1 = w1 := by
        simp [TcpClient.close, h1]
      rw [this]
      exact a1
